import Mathlib

/-!
Verification development for `smolmodels/internal/models/generation/training.py`.

The module under study is the `TrainingCodeGenerator` class: it owns a
conversation history and a provider, and exposes the operations
`generate_training_code`, `fix_training_code`, `review_training_code`, plus
three unimplemented test-oriented operations.  The provider, the prompt
templates and the configuration are external collaborators and are modelled
as parameters; `json.loads` and the pydantic validation of the inline
`FixResponse` schema are modelled concretely below.
-/

/-! ### Code extractor

Modelled from the spec: `extract_code` lives in
`smolmodels/internal/common/utils/response.py`, which is not part of the
sources at hand.  The spec's contract: return the content of the first
fenced code block with fence markers and the language tag stripped; when no
fence is found the policy choice is to return the input verbatim.
-/

/-- Backtick character, written by code point. -/
def btick : Char := Char.ofNat 96

/-- Does the character list start with a triple-backtick fence? -/
def startsWithFence : List Char → Bool
  | c1 :: c2 :: c3 :: _ => c1 = btick && c2 = btick && c3 = btick
  | _ => false

/-- Suffix of the list after the first triple-backtick fence, if any. -/
def splitOnFence : List Char → Option (List Char)
  | [] => none
  | c :: rest =>
    if startsWithFence (c :: rest) then some (rest.drop 2) else splitOnFence rest

/-- Longest fence-free leading segment of the list. -/
def takeUntilFence : List Char → List Char
  | [] => []
  | c :: rest =>
    if startsWithFence (c :: rest) then [] else c :: takeUntilFence rest

/-- Drop everything up to and including the first newline (the language-tag
line of a fenced block); drop everything when no newline occurs. -/
def dropLangLine : List Char → List Char
  | [] => []
  | c :: rest => if c = '\n' then rest else dropLangLine rest

/-- Drop a single trailing newline, if present. -/
def dropTrailingNewline (cs : List Char) : List Char :=
  if cs.getLast? = some '\n' then cs.dropLast else cs

/-- Modelled from the spec: the code extractor
(`smolmodels.internal.common.utils.response.extract_code`).  Content of the
first fenced block, language-tag line and trailing newline stripped; the
input itself when no fence is present. -/
def extract_code (s : String) : String :=
  match splitOnFence s.data with
  | none => s
  | some after =>
      String.mk (dropTrailingNewline (dropLangLine (takeUntilFence after)))

/-- A list extended on the right still starts with a fence. -/
theorem startsWithFence_append (xs t : List Char) (h : startsWithFence xs = true) :
    startsWithFence (xs ++ t) = true := by
  match xs with
  | [] => exact absurd h (by simp [startsWithFence])
  | [c1] => exact absurd h (by simp [startsWithFence])
  | [c1, c2] => exact absurd h (by simp [startsWithFence])
  | c1 :: c2 :: c3 :: r => simpa [startsWithFence] using h

/-- `takeUntilFence` produces a leading segment of its input. -/
theorem takeUntilFence_leads (cs : List Char) : ∃ t, cs = takeUntilFence cs ++ t := by
  induction cs with
  | nil => exact ⟨[], rfl⟩
  | cons c rest ih =>
    by_cases h : startsWithFence (c :: rest) = true
    · exact ⟨c :: rest, by simp [takeUntilFence, h]⟩
    · obtain ⟨t, ht⟩ := ih
      exact ⟨t, by simp [takeUntilFence, h]; exact ht⟩

/-- The fence-free leading segment contains no fence. -/
theorem splitOnFence_takeUntilFence (cs : List Char) :
    splitOnFence (takeUntilFence cs) = none := by
  induction cs with
  | nil => rfl
  | cons c rest ih =>
    by_cases h : startsWithFence (c :: rest) = true
    · simp [takeUntilFence, h, splitOnFence]
    · have hne : startsWithFence (c :: takeUntilFence rest) = false := by
        by_contra h'
        obtain ⟨t, ht⟩ := takeUntilFence_leads rest
        have : startsWithFence (c :: rest) = true := by
          have := startsWithFence_append (c :: takeUntilFence rest) t
            (by revert h'; cases startsWithFence (c :: takeUntilFence rest) <;> simp)
          rw [show (c :: takeUntilFence rest) ++ t = c :: (takeUntilFence rest ++ t) from rfl,
            ← ht] at this
          exact this
        exact h this
      simp [takeUntilFence, h, splitOnFence, hne, ih]

/-- Removing the head of a fence-free list keeps it fence-free. -/
theorem splitOnFence_cons_none {c : Char} {cs : List Char}
    (h : splitOnFence (c :: cs) = none) : splitOnFence cs = none := by
  by_cases hs : startsWithFence (c :: cs) = true
  · simp [splitOnFence, hs] at h
  · simpa [splitOnFence, hs] using h

/-- A fence-free list gives no fence at its head either. -/
theorem startsWithFence_false_of_none {cs : List Char}
    (h : splitOnFence cs = none) : startsWithFence cs = false := by
  cases cs with
  | nil => rfl
  | cons c rest =>
    by_cases hs : startsWithFence (c :: rest) = true
    · simp [splitOnFence, hs] at h
    · revert hs; cases startsWithFence (c :: rest) <;> simp

/-- Dropping the language-tag line keeps a fence-free list fence-free. -/
theorem splitOnFence_dropLangLine {cs : List Char}
    (h : splitOnFence cs = none) : splitOnFence (dropLangLine cs) = none := by
  induction cs with
  | nil => exact h
  | cons c rest ih =>
    have hrest := splitOnFence_cons_none h
    by_cases hn : c = '\n'
    · simpa [dropLangLine, hn] using hrest
    · simpa [dropLangLine, hn] using ih hrest

/-- Dropping the last element keeps a fence-free list fence-free. -/
theorem splitOnFence_dropLast {cs : List Char}
    (h : splitOnFence cs = none) : splitOnFence cs.dropLast = none := by
  induction cs with
  | nil => exact h
  | cons c rest ih =>
    cases rest with
    | nil => rfl
    | cons d rs =>
      have hrest := splitOnFence_cons_none h
      have hdl : splitOnFence (List.dropLast (d :: rs)) = none := ih hrest
      have hne : startsWithFence (c :: List.dropLast (d :: rs)) = false := by
        by_contra h'
        have h'' : startsWithFence (c :: List.dropLast (d :: rs)) = true := by
          revert h'; cases startsWithFence (c :: List.dropLast (d :: rs)) <;> simp
        have hfull : startsWithFence (c :: d :: rs) = true := by
          have hx := startsWithFence_append (c :: List.dropLast (d :: rs))
            [(d :: rs).getLast (by simp)] h''
          rw [show (c :: List.dropLast (d :: rs)) ++ [(d :: rs).getLast (by simp)]
              = c :: (List.dropLast (d :: rs) ++ [(d :: rs).getLast (by simp)]) from rfl,
            List.dropLast_append_getLast (by simp)] at hx
          exact hx
        have := startsWithFence_false_of_none h
        rw [hfull] at this
        exact Bool.noConfusion this
      show splitOnFence (c :: List.dropLast (d :: rs)) = none
      simp [splitOnFence, hne, hdl]

/-- Normalising a trailing newline keeps a fence-free list fence-free. -/
theorem splitOnFence_dropTrailingNewline {cs : List Char}
    (h : splitOnFence cs = none) : splitOnFence (dropTrailingNewline cs) = none := by
  unfold dropTrailingNewline
  split
  · exact splitOnFence_dropLast h
  · exact h

/-- On fence-free input the extractor is the identity. -/
theorem extract_code_of_none {s : String} (h : splitOnFence s.data = none) :
    extract_code s = s := by
  unfold extract_code
  rw [h]

/-- The extractor's output never contains a fence. -/
theorem splitOnFence_extract_code (s : String) :
    splitOnFence (extract_code s).data = none := by
  unfold extract_code
  cases hsp : splitOnFence s.data with
  | none => exact hsp
  | some after =>
    show splitOnFence
      (dropTrailingNewline (dropLangLine (takeUntilFence after))) = none
    exact splitOnFence_dropTrailingNewline
      (splitOnFence_dropLangLine (splitOnFence_takeUntilFence after))

/-! ### JSON values and `json.loads`

The source parses provider responses with Python's `json.loads` and then
validates the resulting dict against the inline pydantic schema
`FixResponse {plan: str, code: str}`.  The parser below follows Python's
default `json.loads`: RFC 8259 values plus the `NaN`, `Infinity` and
`-Infinity` literals, strict rejection of raw control characters in strings,
last-occurrence-wins duplicate object keys.  Numbers are kept as their
lexemes (no claim inspects numeric values).  One modelling restriction:
Python strings may carry lone UTF-16 surrogates, which Lean's `Char` cannot
represent, so a `\u` escape encoding a lone surrogate is treated as a parse
failure here; properly paired surrogates are combined as in Python.
-/

/-- JSON values, numbers kept as lexemes. -/
inductive Json where
  | null : Json
  | bool (b : Bool) : Json
  | num (lexeme : String) : Json
  | str (s : String) : Json
  | arr (elems : List Json) : Json
  | obj (members : List (String × Json)) : Json

/-- JSON insignificant whitespace, as accepted by Python's `json.loads`. -/
def isJsonWs (c : Char) : Bool :=
  c = ' ' || c = '\t' || c = '\n' || c = '\r'

/-- Skip leading JSON whitespace. -/
def skipWs : List Char → List Char
  | [] => []
  | c :: rest => if isJsonWs c then skipWs rest else c :: rest

/-- Value of one hexadecimal digit. -/
def hexVal (c : Char) : Option Nat :=
  if c.isDigit then some (c.toNat - '0'.toNat)
  else if 'a' ≤ c ∧ c ≤ 'f' then some (c.toNat - 'a'.toNat + 10)
  else if 'A' ≤ c ∧ c ≤ 'F' then some (c.toNat - 'A'.toNat + 10)
  else none

/-- Body of a JSON string literal, after the opening quote.  Returns the
decoded string and the characters after the closing quote. -/
def parseStringBody : Nat → List Char → List Char → Option (String × List Char)
  | 0, _, _ => none
  | _ + 1, [], _ => none
  | fuel + 1, c :: rest, acc =>
    if c = '\"' then some (String.mk acc.reverse, rest)
    else if c = '\\' then
      match rest with
      | [] => none
      | e :: rest2 =>
        if e = '\"' then parseStringBody fuel rest2 ('\"' :: acc)
        else if e = '\\' then parseStringBody fuel rest2 ('\\' :: acc)
        else if e = '/' then parseStringBody fuel rest2 ('/' :: acc)
        else if e = 'b' then parseStringBody fuel rest2 (Char.ofNat 8 :: acc)
        else if e = 'f' then parseStringBody fuel rest2 (Char.ofNat 12 :: acc)
        else if e = 'n' then parseStringBody fuel rest2 ('\n' :: acc)
        else if e = 'r' then parseStringBody fuel rest2 ('\r' :: acc)
        else if e = 't' then parseStringBody fuel rest2 ('\t' :: acc)
        else if e = 'u' then
          match rest2 with
          | h1 :: h2 :: h3 :: h4 :: rest3 =>
            match hexVal h1, hexVal h2, hexVal h3, hexVal h4 with
            | some a, some b, some c2, some d =>
              let n := a * 4096 + b * 256 + c2 * 16 + d
              if 0xD800 ≤ n ∧ n ≤ 0xDBFF then
                match rest3 with
                | '\\' :: 'u' :: g1 :: g2 :: g3 :: g4 :: rest4 =>
                  match hexVal g1, hexVal g2, hexVal g3, hexVal g4 with
                  | some a2, some b2, some c3, some d2 =>
                    let m := a2 * 4096 + b2 * 256 + c3 * 16 + d2
                    if 0xDC00 ≤ m ∧ m ≤ 0xDFFF then
                      parseStringBody fuel rest4
                        (Char.ofNat (0x10000 + (n - 0xD800) * 1024 + (m - 0xDC00)) :: acc)
                    else none
                  | _, _, _, _ => none
                | _ => none
              else if 0xDC00 ≤ n ∧ n ≤ 0xDFFF then none
              else parseStringBody fuel rest3 (Char.ofNat n :: acc)
            | _, _, _, _ => none
          | _ => none
        else none
    else if c.toNat < 32 then none
    else parseStringBody fuel rest (c :: acc)

/-- Integer part of a JSON number: `0` or a nonzero digit followed by digits. -/
def parseNumBody (cs : List Char) : Option (List Char × List Char) :=
  match cs with
  | [] => none
  | c :: rest =>
    if c = '0' then some ([c], rest)
    else if c.isDigit then
      let p := rest.span (fun d => d.isDigit)
      some (c :: p.1, p.2)
    else none

/-- Optional fraction part of a JSON number. -/
def parseFrac (cs : List Char) : Option (List Char × List Char) :=
  match cs with
  | '.' :: rest =>
    let p := rest.span (fun d => d.isDigit)
    if p.1.isEmpty then none else some ('.' :: p.1, p.2)
  | _ => some ([], cs)

/-- Optional exponent part of a JSON number. -/
def parseExp (cs : List Char) : Option (List Char × List Char) :=
  match cs with
  | [] => some ([], [])
  | e :: rest =>
    if e = 'e' ∨ e = 'E' then
      match rest with
      | [] => none
      | s :: rest2 =>
        if s = '+' ∨ s = '-' then
          let p := rest2.span (fun d => d.isDigit)
          if p.1.isEmpty then none else some (e :: s :: p.1, p.2)
        else
          let p := rest.span (fun d => d.isDigit)
          if p.1.isEmpty then none else some (e :: p.1, p.2)
    else some ([], e :: rest)

/-- A JSON number starting at the head of the list; returns its lexeme. -/
def parseNumber (cs : List Char) : Option (String × List Char) :=
  let p0 : List Char × List Char :=
    match cs with
    | '-' :: r => (['-'], r)
    | _ => ([], cs)
  match parseNumBody p0.2 with
  | none => none
  | some (ipart, cs2) =>
    match parseFrac cs2 with
    | none => none
    | some (fpart, cs3) =>
      match parseExp cs3 with
      | none => none
      | some (epart, cs4) =>
        some (String.mk (p0.1 ++ ipart ++ fpart ++ epart), cs4)

/-- Left brace character, written by code point to keep it out of literals. -/
def lbrace : Char := Char.ofNat 123

/-- Right brace character, written by code point. -/
def rbrace : Char := Char.ofNat 125

mutual

/-- One JSON value (with leading whitespace) and the remaining input. -/
def parseValue : Nat → List Char → Option (Json × List Char)
  | 0, _ => none
  | fuel + 1, cs =>
    match skipWs cs with
    | [] => none
    | 'n' :: 'u' :: 'l' :: 'l' :: rest => some (Json.null, rest)
    | 't' :: 'r' :: 'u' :: 'e' :: rest => some (Json.bool true, rest)
    | 'f' :: 'a' :: 'l' :: 's' :: 'e' :: rest => some (Json.bool false, rest)
    | 'N' :: 'a' :: 'N' :: rest => some (Json.num "NaN", rest)
    | 'I' :: 'n' :: 'f' :: 'i' :: 'n' :: 'i' :: 't' :: 'y' :: rest =>
      some (Json.num "Infinity", rest)
    | '-' :: 'I' :: 'n' :: 'f' :: 'i' :: 'n' :: 'i' :: 't' :: 'y' :: rest =>
      some (Json.num "-Infinity", rest)
    | '\"' :: rest =>
      match parseStringBody (rest.length + 1) rest [] with
      | some (s, r) => some (Json.str s, r)
      | none => none
    | '[' :: rest =>
      (match skipWs rest with
       | ']' :: r => some (Json.arr [], r)
       | other => parseArrayRest fuel other [])
    | c :: rest =>
      if c = lbrace then
        match skipWs rest with
        | [] => none
        | c2 :: r =>
          if c2 = rbrace then some (Json.obj [], r)
          else parseObjectRest fuel (c2 :: r) []
      else if c = '-' ∨ c.isDigit then
        match parseNumber (c :: rest) with
        | some (s, r) => some (Json.num s, r)
        | none => none
      else none

/-- Elements of a non-empty JSON array, after the opening bracket. -/
def parseArrayRest : Nat → List Char → List Json → Option (Json × List Char)
  | 0, _, _ => none
  | fuel + 1, cs, acc =>
    match parseValue fuel cs with
    | none => none
    | some (v, r) =>
      match skipWs r with
      | ',' :: r2 => parseArrayRest fuel r2 (acc ++ [v])
      | ']' :: r2 => some (Json.arr (acc ++ [v]), r2)
      | _ => none

/-- Members of a non-empty JSON object, after the opening brace. -/
def parseObjectRest : Nat → List Char → List (String × Json) →
    Option (Json × List Char)
  | 0, _, _ => none
  | fuel + 1, cs, acc =>
    match skipWs cs with
    | '\"' :: rest =>
      match parseStringBody (rest.length + 1) rest [] with
      | none => none
      | some (k, r) =>
        match skipWs r with
        | ':' :: r2 =>
          match parseValue fuel r2 with
          | none => none
          | some (v, r3) =>
            match skipWs r3 with
            | [] => none
            | ',' :: r4 => parseObjectRest fuel r4 (acc ++ [(k, v)])
            | c :: r4 =>
              if c = rbrace then some (Json.obj (acc ++ [(k, v)]), r4)
              else none
        | _ => none
    | _ => none

end

/-- Model of Python's `json.loads` with its default settings: one JSON value,
optionally surrounded by whitespace; anything else is a parse failure
(`json.JSONDecodeError`), modelled as `none`. -/
def json_loads (s : String) : Option Json :=
  match parseValue (2 * s.length + 4) s.data with
  | some (j, r) => if (skipWs r).isEmpty then some j else none
  | none => none

/-- Last binding of a key in an object's member list.  Python builds a `dict`
from the members, so a later duplicate key overrides an earlier one. -/
def lookupLast (kvs : List (String × Json)) (k : String) : Option Json :=
  match kvs with
  | [] => none
  | (k', v) :: rest =>
    match lookupLast rest k with
    | some v' => some v'
    | none => if k' = k then some v else none

/-! ### The FixResponse schema

`fix_training_code` declares an inline pydantic model
`class FixResponse(BaseModel): plan: str; code: str` and builds it with
`FixResponse(**json.loads(...))`.  Keyword expansion requires a JSON object;
pydantic requires both fields to be present as strings and, by its default
configuration, ignores extra keys.
-/

/-- The inline pydantic response schema of `fix_training_code`. -/
structure FixResponse where
  plan : String
  code : String

/-- Validation of a parsed JSON value against the `FixResponse` schema:
`FixResponse(**d)` fails (raises) unless `d` is an object providing string
`plan` and `code`; extra keys are ignored. -/
def FixResponse.ofJson : Json → Option FixResponse
  | Json.obj kvs =>
    match lookupLast kvs "plan", lookupLast kvs "code" with
    | some (Json.str p), some (Json.str c) => some { plan := p, code := c }
    | _, _ => none
  | _ => none

/-! ### Prompt templates and `Template.safe_substitute`

The prompt templates live in external configuration
(`smolmodels.config`); the source renders them with Python
`string.Template.safe_substitute(**kwargs)`.  A template is modelled as the
sequence of its literal chunks and `$name` placeholders;
`safe_substitute` replaces a known placeholder with `str(value)` and leaves
an unknown one in place.
-/

/-- One piece of a `string.Template`: a literal chunk or a placeholder. -/
inductive TItem where
  | lit (s : String) : TItem
  | hole (name : String) : TItem

/-- A `string.Template`, as the list of its pieces. -/
abbrev Template := List TItem

/-- One message of the conversation history: a Python `Dict[str, str]`,
modelled as an association list. -/
abbrev Msg := List (String × String)

/-- Python values that the source passes as substitution arguments: strings,
`None`, the allowed-packages list and the history list. -/
inductive PyVal where
  | str (s : String) : PyVal
  | none : PyVal
  | strList (xs : List String) : PyVal
  | msgList (ms : List Msg) : PyVal

/-- Single-quote character, written by code point. -/
def squote : String := String.mk [Char.ofNat 39]

/-- Python `repr` of a string.  Quote-escaping inside the string is not
modelled; no claim depends on it. -/
def pyReprStr (s : String) : String := squote ++ s ++ squote

/-- Python `repr` of a `Dict[str, str]`. -/
def pyReprDict (m : Msg) : String :=
  "\x7b" ++
    String.intercalate ", "
      (m.map (fun p => pyReprStr p.1 ++ ": " ++ pyReprStr p.2)) ++
    "\x7d"

/-- Python `str()` of a substitution argument, as applied by
`Template.safe_substitute`.  `str(None)` is the text `None`. -/
def pyStr : PyVal → String
  | PyVal.str s => s
  | PyVal.none => "None"
  | PyVal.strList xs =>
    "[" ++ String.intercalate ", " (xs.map pyReprStr) ++ "]"
  | PyVal.msgList ms =>
    "[" ++ String.intercalate ", " (ms.map pyReprDict) ++ "]"

/-- Rendering of one template piece under a keyword mapping: a known
placeholder becomes `str(value)`, an unknown one stays as `$name`. -/
def substItem (m : List (String × PyVal)) : TItem → String
  | TItem.lit s => s
  | TItem.hole n =>
    match m.find? (fun p => p.1 = n) with
    | some p => pyStr p.2
    | Option.none => "$" ++ n

/-- Python `Template.safe_substitute(**kwargs)`. -/
def safe_substitute (t : Template) (m : List (String × PyVal)) : String :=
  String.join (t.map (substItem m))

/-! ### Configuration, provider and the orchestrator state -/

/-- The fields of `config.code_generation` read by the source. -/
structure CodeGenerationConfig where
  prompt_training_base : Template
  prompt_training_generate : Template
  prompt_training_fix : Template
  prompt_training_review : Template
  allowed_packages : List String

/-- The field of `config.execution` read by the source. -/
structure ExecutionConfig where
  training_data_path : String

/-- The slice of `smolmodels.config` the source reads. -/
structure Config where
  code_generation : CodeGenerationConfig
  execution : ExecutionConfig

/-- One provider query, as issued by `Provider.query`: system message, user
message, and the name of the response schema when a structured response is
requested. -/
structure Query where
  system_message : String
  user_message : String
  response_format : Option String

/-- The error kinds an operation can surface. -/
inductive QueryError where
  | providerError (msg : String) : QueryError
  | structuredResponseError (msg : String) : QueryError
  | notImplementedError (msg : String) : QueryError

/-- The `TrainingCodeGenerator` class: a bound provider and the conversation
history (initialised empty by `__init__`).  The external provider is
modelled as a function from the query to either an error or the returned
text. -/
structure TrainingCodeGenerator where
  provider : Query → Except String String
  history : List Msg

/-- Result of one operation: the returned value or error, the trace of
provider queries issued during the call, and the generator state after the
call. -/
abbrev OpResult := Except QueryError String × List Query × TrainingCodeGenerator

/-! ### The three implemented operations -/

/-- The keyword arguments `generate_training_code` passes to
`prompt_training_generate.safe_substitute`. -/
def generate_subst (cfg : Config) (gen : TrainingCodeGenerator)
    (problem_statement plan : String) : List (String × PyVal) :=
  [("problem_statement", PyVal.str problem_statement),
   ("plan", PyVal.str plan),
   ("history", PyVal.msgList gen.history),
   ("allowed_packages", PyVal.strList cfg.code_generation.allowed_packages),
   ("training_data_path", PyVal.str cfg.execution.training_data_path)]

/-- The provider query issued by `generate_training_code`. -/
def generate_query (cfg : Config) (gen : TrainingCodeGenerator)
    (problem_statement plan : String) : Query :=
  { system_message := safe_substitute cfg.code_generation.prompt_training_base []
    user_message := safe_substitute cfg.code_generation.prompt_training_generate
      (generate_subst cfg gen problem_statement plan)
    response_format := Option.none }

/-- `TrainingCodeGenerator.generate_training_code`: one unstructured provider
query, its text passed through `extract_code`. -/
def generate_training_code (cfg : Config) (gen : TrainingCodeGenerator)
    (problem_statement plan : String) : OpResult :=
  match gen.provider (generate_query cfg gen problem_statement plan) with
  | Except.error e =>
    (Except.error (QueryError.providerError e),
     [generate_query cfg gen problem_statement plan], gen)
  | Except.ok text =>
    (Except.ok (extract_code text),
     [generate_query cfg gen problem_statement plan], gen)

/-- The value passed for the optional `problems: str = None` parameter. -/
def pyOpt : Option String → PyVal
  | some s => PyVal.str s
  | Option.none => PyVal.none

/-- The keyword arguments `fix_training_code` passes to
`prompt_training_fix.safe_substitute`, in source order. -/
def fix_subst (cfg : Config) (training_code plan review : String)
    (problems : Option String) : List (String × PyVal) :=
  [("plan", PyVal.str plan),
   ("training_code", PyVal.str training_code),
   ("review", PyVal.str review),
   ("problems", pyOpt problems),
   ("training_data_path", PyVal.str cfg.execution.training_data_path),
   ("allowed_packages", PyVal.strList cfg.code_generation.allowed_packages)]

/-- The provider query issued by `fix_training_code`: the only structured
query, constrained to the `FixResponse` schema. -/
def fix_query (cfg : Config) (training_code plan review : String)
    (problems : Option String) : Query :=
  { system_message := safe_substitute cfg.code_generation.prompt_training_base []
    user_message := safe_substitute cfg.code_generation.prompt_training_fix
      (fix_subst cfg training_code plan review problems)
    response_format := some "FixResponse" }

/-- `TrainingCodeGenerator.fix_training_code`: one structured provider query;
the response text goes through `json.loads` and `FixResponse(**...)`, and the
validated `code` field through `extract_code`.  A `json.loads` failure
(`JSONDecodeError`) and a pydantic failure (`ValidationError`/`TypeError`)
are both structured-response failures, distinct from provider errors. -/
def fix_training_code (cfg : Config) (gen : TrainingCodeGenerator)
    (training_code plan review : String)
    (problems : Option String := Option.none) : OpResult :=
  match gen.provider (fix_query cfg training_code plan review problems) with
  | Except.error e =>
    (Except.error (QueryError.providerError e),
     [fix_query cfg training_code plan review problems], gen)
  | Except.ok text =>
    match json_loads text with
    | Option.none =>
      (Except.error
        (QueryError.structuredResponseError "provider response is not valid JSON"),
       [fix_query cfg training_code plan review problems], gen)
    | some j =>
      match FixResponse.ofJson j with
      | Option.none =>
        (Except.error
          (QueryError.structuredResponseError
            "provider response does not match the FixResponse schema"),
         [fix_query cfg training_code plan review problems], gen)
      | some r =>
        (Except.ok (extract_code r.code),
         [fix_query cfg training_code plan review problems], gen)

/-- The keyword arguments `review_training_code` passes to
`prompt_training_review.safe_substitute`, in source order. -/
def review_subst (cfg : Config) (gen : TrainingCodeGenerator)
    (training_code problem_statement plan : String)
    (problems : Option String) : List (String × PyVal) :=
  [("problem_statement", PyVal.str problem_statement),
   ("plan", PyVal.str plan),
   ("training_code", PyVal.str training_code),
   ("problems", pyOpt problems),
   ("history", PyVal.msgList gen.history),
   ("allowed_packages", PyVal.strList cfg.code_generation.allowed_packages)]

/-- The provider query issued by `review_training_code`. -/
def review_query (cfg : Config) (gen : TrainingCodeGenerator)
    (training_code problem_statement plan : String)
    (problems : Option String) : Query :=
  { system_message := safe_substitute cfg.code_generation.prompt_training_base []
    user_message := safe_substitute cfg.code_generation.prompt_training_review
      (review_subst cfg gen training_code problem_statement plan problems)
    response_format := Option.none }

/-- `TrainingCodeGenerator.review_training_code`: one unstructured provider
query whose text is returned as is. -/
def review_training_code (cfg : Config) (gen : TrainingCodeGenerator)
    (training_code problem_statement plan : String)
    (problems : Option String := Option.none) : OpResult :=
  match gen.provider
      (review_query cfg gen training_code problem_statement plan problems) with
  | Except.error e =>
    (Except.error (QueryError.providerError e),
     [review_query cfg gen training_code problem_statement plan problems], gen)
  | Except.ok text =>
    (Except.ok text,
     [review_query cfg gen training_code problem_statement plan problems], gen)

/-! ### The three unimplemented operations -/

/-- `TrainingCodeGenerator.generate_training_tests`: raises
`NotImplementedError` before touching the provider. -/
def generate_training_tests (gen : TrainingCodeGenerator)
    (problem_statement plan training_code : String) : OpResult :=
  (Except.error (QueryError.notImplementedError
      "Generation of the training tests is not yet implemented."),
   [], gen)

/-- `TrainingCodeGenerator.fix_training_tests`: raises
`NotImplementedError` before touching the provider. -/
def fix_training_tests (gen : TrainingCodeGenerator)
    (training_tests training_code review : String)
    (problems : Option String := Option.none) : OpResult :=
  (Except.error (QueryError.notImplementedError
      "Fixing of the training tests is not yet implemented."),
   [], gen)

/-- `TrainingCodeGenerator.review_training_tests`: raises
`NotImplementedError` before touching the provider. -/
def review_training_tests (gen : TrainingCodeGenerator)
    (training_tests training_code problem_statement plan : String) : OpResult :=
  (Except.error (QueryError.notImplementedError
      "Review of the training tests is not yet implemented."),
   [], gen)

/-! ### Helper lemmas shared by the claims -/

/-- `generate_training_code` issues exactly its one query, whatever the
provider does. -/
theorem generate_training_code_queries (cfg : Config)
    (gen : TrainingCodeGenerator) (problem_statement plan : String) :
    (generate_training_code cfg gen problem_statement plan).2.1 =
      [generate_query cfg gen problem_statement plan] := by
  unfold generate_training_code
  cases gen.provider (generate_query cfg gen problem_statement plan) <;> rfl

/-- `generate_training_code` leaves the generator state untouched. -/
theorem generate_training_code_gen_eq (cfg : Config)
    (gen : TrainingCodeGenerator) (problem_statement plan : String) :
    (generate_training_code cfg gen problem_statement plan).2.2 = gen := by
  unfold generate_training_code
  cases gen.provider (generate_query cfg gen problem_statement plan) <;> rfl

/-- `fix_training_code` issues exactly its one query, whatever the provider
and the parse outcome are. -/
theorem fix_training_code_queries (cfg : Config) (gen : TrainingCodeGenerator)
    (training_code plan review : String) (problems : Option String) :
    (fix_training_code cfg gen training_code plan review problems).2.1 =
      [fix_query cfg training_code plan review problems] := by
  unfold fix_training_code
  rcases gen.provider (fix_query cfg training_code plan review problems)
    with e | text
  · rfl
  · rcases hj : json_loads text with _ | j
    · simp [hj]
    · rcases hr : FixResponse.ofJson j with _ | r <;> simp [hj, hr]

/-- `fix_training_code` leaves the generator state untouched. -/
theorem fix_training_code_gen_eq (cfg : Config) (gen : TrainingCodeGenerator)
    (training_code plan review : String) (problems : Option String) :
    (fix_training_code cfg gen training_code plan review problems).2.2 = gen := by
  unfold fix_training_code
  rcases gen.provider (fix_query cfg training_code plan review problems)
    with e | text
  · rfl
  · rcases hj : json_loads text with _ | j
    · simp [hj]
    · rcases hr : FixResponse.ofJson j with _ | r <;> simp [hj, hr]

/-- `review_training_code` issues exactly its one query. -/
theorem review_training_code_queries (cfg : Config)
    (gen : TrainingCodeGenerator)
    (training_code problem_statement plan : String)
    (problems : Option String) :
    (review_training_code cfg gen training_code problem_statement plan
        problems).2.1 =
      [review_query cfg gen training_code problem_statement plan problems] := by
  unfold review_training_code
  cases gen.provider
    (review_query cfg gen training_code problem_statement plan problems) <;> rfl

/-- `review_training_code` leaves the generator state untouched. -/
theorem review_training_code_gen_eq (cfg : Config)
    (gen : TrainingCodeGenerator)
    (training_code problem_statement plan : String)
    (problems : Option String) :
    (review_training_code cfg gen training_code problem_statement plan
        problems).2.2 = gen := by
  unfold review_training_code
  cases gen.provider
    (review_query cfg gen training_code problem_statement plan problems) <;> rfl

/-- A JSON object with no `code` binding fails `FixResponse` validation. -/
theorem FixResponse.ofJson_no_code {kvs : List (String × Json)}
    (hcode : lookupLast kvs "code" = Option.none) :
    FixResponse.ofJson (Json.obj kvs) = Option.none := by
  simp only [FixResponse.ofJson]
  rw [hcode]
  rcases lookupLast kvs "plan" with _ | v
  · rfl
  · cases v <;> rfl

/-- A JSON object with string `plan` and `code` bindings passes `FixResponse`
validation with exactly those fields. -/
theorem FixResponse.ofJson_ok {kvs : List (String × Json)} {p c : String}
    (hplan : lookupLast kvs "plan" = some (Json.str p))
    (hcode : lookupLast kvs "code" = some (Json.str c)) :
    FixResponse.ofJson (Json.obj kvs) = some { plan := p, code := c } := by
  simp only [FixResponse.ofJson]
  rw [hplan, hcode]

/-! ### Concrete instances used by the witnesses -/

/-- A small concrete configuration for the witnesses. -/
def cfgW : Config :=
  { code_generation :=
      { prompt_training_base := [TItem.lit "You write ML training code."]
        prompt_training_generate :=
          [TItem.lit "Problem: ", TItem.hole "problem_statement",
           TItem.lit " Plan: ", TItem.hole "plan",
           TItem.lit " History: ", TItem.hole "history",
           TItem.lit " Packages: ", TItem.hole "allowed_packages",
           TItem.lit " Data: ", TItem.hole "training_data_path"]
        prompt_training_fix :=
          [TItem.lit "Plan: ", TItem.hole "plan",
           TItem.lit " Code: ", TItem.hole "training_code",
           TItem.lit " Review: ", TItem.hole "review",
           TItem.lit " Problems: ", TItem.hole "problems",
           TItem.lit " Data: ", TItem.hole "training_data_path",
           TItem.lit " Packages: ", TItem.hole "allowed_packages"]
        prompt_training_review :=
          [TItem.lit "Problem: ", TItem.hole "problem_statement",
           TItem.lit " Plan: ", TItem.hole "plan",
           TItem.lit " Code: ", TItem.hole "training_code",
           TItem.lit " Problems: ", TItem.hole "problems",
           TItem.lit " History: ", TItem.hole "history",
           TItem.lit " Packages: ", TItem.hole "allowed_packages"]
        allowed_packages := ["pandas", "numpy"] }
    execution := { training_data_path := "training_data.csv" } }

/-- Provider response used by the C1 witness: valid JSON with a valid `plan`
but no `code` field. -/
def c1text : String := "\x7b\"plan\": \"p\"\x7d"

/-- Generator whose provider always answers `c1text`. -/
def genC1 : TrainingCodeGenerator :=
  { provider := fun _ => Except.ok c1text, history := [] }

/-- The minimal valid structured response of the spec. -/
def c6text : String :=
  "\x7b\"plan\": \"p\", \"code\": \"```python\\nx=1\\n```\"\x7d"

/-- Generator whose provider always answers with a fenced code block. -/
def genC2 : TrainingCodeGenerator :=
  { provider := fun _ => Except.ok "```python\nprint(42)\n```", history := [] }

/-- Generator whose provider always answers with prose. -/
def genC3 : TrainingCodeGenerator :=
  { provider := fun _ => Except.ok "Looks good, but add a validation split.",
    history := [] }

/-- Provider response used by the C10 witness: valid `plan` and `code` plus
an extra key. -/
def c10text : String :=
  "\x7b\"plan\": \"p\", \"code\": \"print(1)\", \"extra\": 1\x7d"

/-- Generator whose provider always answers `c10text`. -/
def genC10 : TrainingCodeGenerator :=
  { provider := fun _ => Except.ok c10text, history := [] }

/-! ### The claims -/

/-- C1: for every provider response on a `fix_training_code` call that is
either not valid JSON or a JSON object missing the `code` field (even if it
contains a valid `plan` field), `fix_training_code` fails with a
structured-response (schema-validation) error, an error kind distinct from a
provider error, and never returns a coerced or partial result. -/
theorem fix_training_code_rejects_malformed
    (cfg : Config) (gen : TrainingCodeGenerator)
    (training_code plan review : String) (problems : Option String)
    (text : String)
    (hq : gen.provider (fix_query cfg training_code plan review problems) =
      Except.ok text)
    (hbad : json_loads text = Option.none ∨
      ∃ kvs, json_loads text = some (Json.obj kvs) ∧
        lookupLast kvs "code" = Option.none) :
    (∃ msg,
      (fix_training_code cfg gen training_code plan review problems).1 =
        Except.error (QueryError.structuredResponseError msg) ∧
      ∀ e, QueryError.structuredResponseError msg ≠ QueryError.providerError e) ∧
    ∀ s, (fix_training_code cfg gen training_code plan review problems).1 ≠
      Except.ok s := by
  have hres : ∃ msg,
      (fix_training_code cfg gen training_code plan review problems).1 =
        Except.error (QueryError.structuredResponseError msg) := by
    simp only [fix_training_code, hq]
    rcases hbad with hnone | ⟨kvs, hobj, hcode⟩
    · simp only [hnone]
      exact ⟨_, rfl⟩
    · simp only [hobj, FixResponse.ofJson_no_code hcode]
      exact ⟨_, rfl⟩
  obtain ⟨msg, hmsg⟩ := hres
  refine ⟨⟨msg, hmsg, fun e h => QueryError.noConfusion h⟩, ?_⟩
  intro s h
  rw [hmsg] at h
  exact Except.noConfusion h

/-- Witness for C1, at the concrete response `c1text`, which is valid JSON
with a `plan` field but no `code` field. -/
theorem fix_training_code_rejects_malformed_witness :
    (genC1.provider (fix_query cfgW "tc" "plan" "rev" Option.none) =
        Except.ok c1text ∧
      (json_loads c1text = Option.none ∨
        ∃ kvs, json_loads c1text = some (Json.obj kvs) ∧
          lookupLast kvs "code" = Option.none)) ∧
    ((∃ msg,
        (fix_training_code cfgW genC1 "tc" "plan" "rev" Option.none).1 =
          Except.error (QueryError.structuredResponseError msg) ∧
        ∀ e, QueryError.structuredResponseError msg ≠
          QueryError.providerError e) ∧
      ∀ s, (fix_training_code cfgW genC1 "tc" "plan" "rev" Option.none).1 ≠
        Except.ok s) :=
  ⟨⟨rfl, Or.inr ⟨[("plan", Json.str "p")], rfl, rfl⟩⟩,
    fix_training_code_rejects_malformed cfgW genC1 "tc" "plan" "rev"
      Option.none c1text rfl
      (Or.inr ⟨[("plan", Json.str "p")], rfl, rfl⟩)⟩

/-- C2: for every (problem_statement, plan) pair, `generate_training_code`
issues exactly one provider query and returns exactly `extract_code` applied
to the text that query returned — no retries, no other provider calls. -/
theorem generate_training_code_single_query_extract
    (cfg : Config) (gen : TrainingCodeGenerator)
    (problem_statement plan text : String)
    (hq : gen.provider (generate_query cfg gen problem_statement plan) =
      Except.ok text) :
    (generate_training_code cfg gen problem_statement plan).2.1 =
      [generate_query cfg gen problem_statement plan] ∧
    (generate_training_code cfg gen problem_statement plan).1 =
      Except.ok (extract_code text) := by
  refine ⟨generate_training_code_queries cfg gen problem_statement plan, ?_⟩
  simp only [generate_training_code, hq]

/-- Witness for C2 at a concrete provider answering a fenced block. -/
theorem generate_training_code_single_query_extract_witness :
    genC2.provider (generate_query cfgW genC2 "predict prices" "use trees") =
      Except.ok "```python\nprint(42)\n```" ∧
    ((generate_training_code cfgW genC2 "predict prices" "use trees").2.1 =
      [generate_query cfgW genC2 "predict prices" "use trees"] ∧
    (generate_training_code cfgW genC2 "predict prices" "use trees").1 =
      Except.ok (extract_code "```python\nprint(42)\n```")) :=
  ⟨rfl, generate_training_code_single_query_extract cfgW genC2
    "predict prices" "use trees" "```python\nprint(42)\n```" rfl⟩

/-- C3: `review_training_code` returns the raw text of its single provider
query byte for byte — no code extraction is applied — and leaves the
generator state, its conversation history included, untouched. -/
theorem review_training_code_verbatim
    (cfg : Config) (gen : TrainingCodeGenerator)
    (training_code problem_statement plan : String)
    (problems : Option String) (text : String)
    (hq : gen.provider
        (review_query cfg gen training_code problem_statement plan problems) =
      Except.ok text) :
    (review_training_code cfg gen training_code problem_statement plan
        problems).1 = Except.ok text ∧
    (review_training_code cfg gen training_code problem_statement plan
        problems).2.1 =
      [review_query cfg gen training_code problem_statement plan problems] ∧
    (review_training_code cfg gen training_code problem_statement plan
        problems).2.2 = gen := by
  refine ⟨?_,
    review_training_code_queries cfg gen training_code problem_statement plan
      problems,
    review_training_code_gen_eq cfg gen training_code problem_statement plan
      problems⟩
  simp only [review_training_code, hq]

/-- Witness for C3 at a concrete provider answering prose. -/
theorem review_training_code_verbatim_witness :
    genC3.provider (review_query cfgW genC3 "x=1" "predict" "plan" Option.none) =
      Except.ok "Looks good, but add a validation split." ∧
    ((review_training_code cfgW genC3 "x=1" "predict" "plan" Option.none).1 =
      Except.ok "Looks good, but add a validation split." ∧
    (review_training_code cfgW genC3 "x=1" "predict" "plan" Option.none).2.1 =
      [review_query cfgW genC3 "x=1" "predict" "plan" Option.none] ∧
    (review_training_code cfgW genC3 "x=1" "predict" "plan" Option.none).2.2 =
      genC3) :=
  ⟨rfl, review_training_code_verbatim cfgW genC3 "x=1" "predict" "plan"
    Option.none "Looks good, but add a validation split." rfl⟩

/-- C4: every call to `generate_training_tests`, `fix_training_tests` or
`review_training_tests` fails with the not-implemented error — an error kind
distinct from the provider-error and the structured-response-error kinds —
issues no provider query, and never returns output. -/
theorem training_tests_not_implemented
    (gen : TrainingCodeGenerator)
    (problem_statement plan training_code training_tests review : String)
    (problems : Option String) :
    ((generate_training_tests gen problem_statement plan training_code).1 =
        Except.error (QueryError.notImplementedError
          "Generation of the training tests is not yet implemented.") ∧
      (generate_training_tests gen problem_statement plan training_code).2.1 =
        [] ∧
      ∀ s, (generate_training_tests gen problem_statement plan
        training_code).1 ≠ Except.ok s) ∧
    ((fix_training_tests gen training_tests training_code review problems).1 =
        Except.error (QueryError.notImplementedError
          "Fixing of the training tests is not yet implemented.") ∧
      (fix_training_tests gen training_tests training_code review
        problems).2.1 = [] ∧
      ∀ s, (fix_training_tests gen training_tests training_code review
        problems).1 ≠ Except.ok s) ∧
    ((review_training_tests gen training_tests training_code problem_statement
        plan).1 =
        Except.error (QueryError.notImplementedError
          "Review of the training tests is not yet implemented.") ∧
      (review_training_tests gen training_tests training_code
        problem_statement plan).2.1 = [] ∧
      ∀ s, (review_training_tests gen training_tests training_code
        problem_statement plan).1 ≠ Except.ok s) ∧
    ∀ m e, QueryError.notImplementedError m ≠ QueryError.providerError e ∧
      QueryError.notImplementedError m ≠
        QueryError.structuredResponseError e := by
  refine ⟨⟨rfl, rfl, ?_⟩, ⟨rfl, rfl, ?_⟩, ⟨rfl, rfl, ?_⟩, ?_⟩
  · intro s h; exact Except.noConfusion h
  · intro s h; exact Except.noConfusion h
  · intro s h; exact Except.noConfusion h
  · intro m e
    exact ⟨fun h => QueryError.noConfusion h, fun h => QueryError.noConfusion h⟩

/-- C5: none of `generate_training_code`, `fix_training_code` and
`review_training_code` changes the conversation history — whether the call
succeeds or fails, the history after the call is the history before it. -/
theorem history_read_only
    (cfg : Config) (gen : TrainingCodeGenerator)
    (problem_statement plan training_code review : String)
    (problems : Option String) :
    (generate_training_code cfg gen problem_statement plan).2.2.history =
      gen.history ∧
    (fix_training_code cfg gen training_code plan review problems).2.2.history =
      gen.history ∧
    (review_training_code cfg gen training_code problem_statement plan
        problems).2.2.history = gen.history :=
  ⟨congrArg TrainingCodeGenerator.history
      (generate_training_code_gen_eq cfg gen problem_statement plan),
    congrArg TrainingCodeGenerator.history
      (fix_training_code_gen_eq cfg gen training_code plan review problems),
    congrArg TrainingCodeGenerator.history
      (review_training_code_gen_eq cfg gen training_code problem_statement
        plan problems)⟩

/-- C6: on the minimal valid structured response
`{"plan": "p", "code": "```python\nx=1\n```"}` the call succeeds and returns
the extracted code `x=1`, fence markers and language tag stripped. -/
theorem fix_training_code_minimal_valid
    (cfg : Config) (history : List Msg)
    (training_code plan review : String) (problems : Option String) :
    (fix_training_code cfg
        { provider := fun _ => Except.ok c6text, history := history }
        training_code plan review problems).1 = Except.ok "x=1" := rfl

/-- C7: the code extractor is idempotent — extracting from an already
extracted output changes nothing.  Determinism is definitional here:
`extract_code` is a pure function of its input. -/
theorem extract_code_idempotent (s : String) :
    extract_code (extract_code s) = extract_code s :=
  extract_code_of_none (splitOnFence_extract_code s)

/-- C8: the user prompt sent by `fix_training_code` is rendered from the fix
template with exactly the keyword arguments `plan`, `training_code`,
`review`, `problems`, `training_data_path` and `allowed_packages`; unlike
the generate and review prompts, no `history` argument is passed. -/
theorem fix_prompt_fields
    (cfg : Config) (gen : TrainingCodeGenerator)
    (training_code plan review : String) (problems : Option String) :
    (fix_training_code cfg gen training_code plan review problems).2.1 =
      [fix_query cfg training_code plan review problems] ∧
    (fix_query cfg training_code plan review problems).user_message =
      safe_substitute cfg.code_generation.prompt_training_fix
        (fix_subst cfg training_code plan review problems) ∧
    (fix_subst cfg training_code plan review problems).map Prod.fst =
      ["plan", "training_code", "review", "problems", "training_data_path",
        "allowed_packages"] ∧
    "history" ∉ (fix_subst cfg training_code plan review problems).map
      Prod.fst := by
  refine ⟨fix_training_code_queries cfg gen training_code plan review problems,
    rfl, rfl, ?_⟩
  simp [fix_subst]

/-- C9: with the optional `problems` argument omitted, the Python value
`None` is what `safe_substitute` receives for the `problems` placeholder in
both the fix and the review prompt, so the placeholder renders as the
literal text `None` — it is not left empty or unsubstituted. -/
theorem problems_defaults_to_None
    (cfg : Config) (gen : TrainingCodeGenerator)
    (training_code problem_statement plan review : String) :
    substItem (fix_subst cfg training_code plan review Option.none)
      (TItem.hole "problems") = "None" ∧
    substItem
      (review_subst cfg gen training_code problem_statement plan Option.none)
      (TItem.hole "problems") = "None" ∧
    (fix_query cfg training_code plan review Option.none).user_message =
      String.join (cfg.code_generation.prompt_training_fix.map
        (substItem (fix_subst cfg training_code plan review Option.none))) ∧
    (review_query cfg gen training_code problem_statement plan
        Option.none).user_message =
      String.join (cfg.code_generation.prompt_training_review.map
        (substItem
          (review_subst cfg gen training_code problem_statement plan
            Option.none))) :=
  ⟨rfl, rfl, rfl, rfl⟩

/-- C10: a provider response that is a JSON object with string `plan` and
`code` fields plus arbitrary extra keys is accepted: the extra keys are
ignored and the call returns the extraction of the `code` field. -/
theorem fix_training_code_ignores_extra_keys
    (cfg : Config) (gen : TrainingCodeGenerator)
    (training_code plan review : String) (problems : Option String)
    (text : String) (kvs : List (String × Json)) (p c : String)
    (hq : gen.provider (fix_query cfg training_code plan review problems) =
      Except.ok text)
    (hparse : json_loads text = some (Json.obj kvs))
    (hplan : lookupLast kvs "plan" = some (Json.str p))
    (hcode : lookupLast kvs "code" = some (Json.str c)) :
    (fix_training_code cfg gen training_code plan review problems).1 =
      Except.ok (extract_code c) := by
  simp only [fix_training_code, hq, hparse, FixResponse.ofJson_ok hplan hcode]

/-- Witness for C10 at the concrete response `c10text`, whose `extra` key is
ignored. -/
theorem fix_training_code_ignores_extra_keys_witness :
    (genC10.provider (fix_query cfgW "tc" "plan" "rev" Option.none) =
        Except.ok c10text ∧
      json_loads c10text =
        some (Json.obj [("plan", Json.str "p"), ("code", Json.str "print(1)"),
          ("extra", Json.num "1")]) ∧
      lookupLast [("plan", Json.str "p"), ("code", Json.str "print(1)"),
        ("extra", Json.num "1")] "plan" = some (Json.str "p") ∧
      lookupLast [("plan", Json.str "p"), ("code", Json.str "print(1)"),
        ("extra", Json.num "1")] "code" = some (Json.str "print(1)")) ∧
    (fix_training_code cfgW genC10 "tc" "plan" "rev" Option.none).1 =
      Except.ok (extract_code "print(1)") :=
  ⟨⟨rfl, rfl, rfl, rfl⟩,
    fix_training_code_ignores_extra_keys cfgW genC10 "tc" "plan" "rev"
      Option.none c10text
      [("plan", Json.str "p"), ("code", Json.str "print(1)"),
        ("extra", Json.num "1")]
      "p" "print(1)" rfl rfl rfl rfl⟩
